import Mathlib

/-!
Shallow embedding of the peer-to-peer voice coordination core of the
comsecure chat application: the `useVoiceChat` hook (audio capture and
activity detection, signaling-relay event handlers, mesh peer management,
mute/deafen controls, and session teardown).  JavaScript `Map`s are
embedded as association lists with `set`/`delete`/`get` operations,
mutable refs become fields of an explicit `VoiceState` record, and each
relay/peer event handler becomes a state-transition function.  Ghost
fields (`captureAttempts`, `destroyedPeers`, `stoppedStreams`,
`detachedAudios`, `unsubscribeCount`, `channelsCreated`, `sentActivity`,
`sentSignals`) record the externally visible effects (getUserMedia calls,
`peer.destroy()` calls, track stops, audio-element teardown, channel
unsubscribes, broadcasts) that the original code performs on objects it
then drops.
-/

/-- Lookup in a JS-`Map`-style association list (`map.get(k)`). -/
def mapGet {α : Type} (m : List (String × α)) (k : String) : Option α :=
  match m with
  | [] => none
  | (k2, v) :: rest => if k2 = k then some v else mapGet rest k

/-- `map.set(k, v)`: replace the entry for `k` if present, else append. -/
def mapSet {α : Type} (m : List (String × α)) (k : String) (v : α) :
    List (String × α) :=
  match m with
  | [] => [(k, v)]
  | (k2, v2) :: rest => if k2 = k then (k, v) :: rest else (k2, v2) :: mapSet rest k v

/-- `map.delete(k)`: remove the entry for `k`. -/
def mapDelete {α : Type} (m : List (String × α)) (k : String) :
    List (String × α) :=
  match m with
  | [] => []
  | (k2, v2) :: rest => if k2 = k then mapDelete rest k else (k2, v2) :: mapDelete rest k

/-- `map.has(k)`. -/
def mapHas {α : Type} (m : List (String × α)) (k : String) : Bool :=
  (mapGet m k).isSome

/-- One audio `MediaStreamTrack`: its `enabled` flag (toggled by mute) and
whether `track.stop()` has been called. -/
structure MediaTrack where
  enabled : Bool
  stopped : Bool
deriving DecidableEq

/-- A `MediaStream` as the list of its audio tracks
(`getAudioTracks()` order). -/
structure MediaStream where
  tracks : List MediaTrack
deriving DecidableEq

/-- The `AudioContext` used for analysis; only its closed-ness matters to
the hook (`audioContextRef.current.state !== 'closed'`). -/
structure AudioCtx where
  closed : Bool
deriving DecidableEq

/-- An `HTMLAudioElement` used for one remote peer's playback: `volume`,
`paused`, whether `srcObject` is set, and whether it is attached to the
document body. -/
structure AudioElem where
  volume : Rat
  paused : Bool
  hasSrc : Bool
  attached : Bool
deriving DecidableEq

/-- A `simple-peer` instance as stored in `peersRef`; the hook only ever
reads whether it exists and with which `initiator` flag it was created
(the connection internals live in the library). -/
structure PeerInst where
  initiator : Bool
deriving DecidableEq

/-- One entry of the `voiceUsers` roster state. -/
structure VoiceUser where
  id : String
  nickname : String
  isMuted : Bool
  isSpeaking : Bool
  audioLevel : Rat
deriving DecidableEq

/-- A `voice_activity` broadcast payload. -/
structure ActivityPayload where
  userId : String
  isSpeaking : Bool
  audioLevel : Rat
  isMuted : Bool
deriving DecidableEq

/-- A `webrtc_signal` broadcast payload; the opaque SDP/ICE signal data is
abstracted to a number (the hook never inspects it, it only forwards it to
`peer.signal`). -/
structure SignalMsg where
  target : String
  fromUser : String
  signalData : Nat
deriving DecidableEq

/-- The supabase realtime channel stored in `channelRef`; only its
subscribed-ness is observable to the hook. -/
structure RelayChannel where
  subscribed : Bool
deriving DecidableEq

/-- The complete mutable state of one `useVoiceChat` hook instance: the
props (`channelId`, `nickname`, `isEnabled`), the React state cells, the
refs, and ghost fields recording externally visible effects. -/
structure VoiceState where
  channelId : String
  nickname : String
  isEnabled : Bool
  isConnected : Bool
  isMuted : Bool
  isDeafened : Bool
  voiceUsers : List VoiceUser
  audioLevel : Rat
  connectionError : Option String
  localStream : Option MediaStream
  audioContext : Option AudioCtx
  /-- Whether the `requestAnimationFrame` sampling loop is still alive. -/
  vadActive : Bool
  /-- Whether `animationFrameRef.current` holds a frame id (the id value
  itself is abstracted away; note the ref is never nulled by the code). -/
  animationFrame : Bool
  peers : List (String × PeerInst)
  channel : Option RelayChannel
  remoteAudios : List (String × AudioElem)
  /-- Ghost: number of `getUserMedia` acquisition attempts issued. -/
  captureAttempts : Nat
  /-- Ghost: number of `supabase.channel(...)` objects created. -/
  channelsCreated : Nat
  /-- Ghost: number of `channel.unsubscribe()` calls issued. -/
  unsubscribeCount : Nat
  /-- Ghost: identities whose peer connection got `destroy()`ed. -/
  destroyedPeers : List String
  /-- Ghost: local streams released after having all tracks stopped. -/
  stoppedStreams : List MediaStream
  /-- Ghost: remote audio elements after pause/detach removal. -/
  detachedAudios : List (String × AudioElem)
  /-- Ghost: `voice_activity` broadcasts sent. -/
  sentActivity : List ActivityPayload
  /-- Ghost: `webrtc_signal` broadcasts sent. -/
  sentSignals : List SignalMsg
deriving DecidableEq

/-- The hook state right after mount: the `useState` initial values and
empty refs. -/
def initialVoiceState (channelId nickname : String) (isEnabled : Bool) : VoiceState :=
  { channelId := channelId
    nickname := nickname
    isEnabled := isEnabled
    isConnected := false
    isMuted := false
    isDeafened := false
    voiceUsers := []
    audioLevel := 0
    connectionError := none
    localStream := none
    audioContext := none
    vadActive := false
    animationFrame := false
    peers := []
    channel := none
    remoteAudios := []
    captureAttempts := 0
    channelsCreated := 0
    unsubscribeCount := 0
    destroyedPeers := []
    stoppedStreams := []
    detachedAudios := []
    sentActivity := []
    sentSignals := [] }

/-- Error string set inside `initializeAudio`'s catch block. -/
def micDeniedMsg : String :=
  "Microphone access denied. Please allow microphone access and try again."

/-- Error string set inside `connectToVoice`'s catch block. -/
def connectFailedMsg : String :=
  "Failed to connect to voice chat. Please check your microphone permissions."

/-- The state mutations of a successful `getUserMedia` acquisition
(source lines 144-157): store the stream (one live, enabled audio
track), open an `AudioContext` with an analyser, and start the
`requestAnimationFrame` sampling loop. -/
def freshCaptureState (s : VoiceState) : VoiceState :=
  { s with
      localStream := some (MediaStream.mk [MediaTrack.mk true false])
      audioContext := some (AudioCtx.mk false)
      vadActive := true
      animationFrame := true }

/-- `initializeAudio` (source lines 132-165): issue a `getUserMedia`
acquisition (ghost-counted); on success store the stream (one enabled
audio track), create the `AudioContext`/analyser, and start the
`requestAnimationFrame` voice-activity loop; on failure set the
microphone-denied error and rethrow (the `Bool` result is `false`).
The first synchronous `detectVoice` run sees all-zero analyser data, so
it changes nothing (level 0, below the 0.05 broadcast floor). -/
def initAudio (captureOk : Bool) (s : VoiceState) : VoiceState × Bool :=
  let s1 := { s with captureAttempts := s.captureAttempts + 1 }
  if captureOk then
    (freshCaptureState s1, true)
  else
    ({ s1 with connectionError := some micDeniedMsg }, false)

/-- The `voice_activity` payload built by `detectVoice` (source lines
187-192): `isSpeaking` is the strict comparison `lvl > 0.15`. -/
def activityPayloadOf (nickname : String) (muted : Bool) (lvl : Rat) : ActivityPayload :=
  { userId := nickname
    isSpeaking := decide (lvl > 15 / 100)
    audioLevel := lvl
    isMuted := muted }

/-- One iteration of `detectVoice` (source lines 173-197), driven by the
analyser's byte frequency data: compute `average`, the normalized level
`min (average / 128) 1`, store it in `audioLevel`, and when a channel
exists and the level is above `0.05` broadcast a `voice_activity` payload
whose `isSpeaking` is `level > 0.15`.  The analyser has `fftSize = 256`
(source line 153), so `frequencyBinCount` is 128 and the reads the loop
can actually hand this step are exactly the length-128 byte lists; the
function is total on all lists (JS `reduce` on an empty array would
throw, but Lean's total division makes that unreachable case a silent
level-0 sample), and theorems about producible samples carry the
128-bin constraint as a hypothesis. -/
def detectVoiceStep (dataArray : List Nat) (s : VoiceState) : VoiceState :=
  let average : Rat := (dataArray.sum : Rat) / (dataArray.length : Rat)
  let lvl : Rat := min (average / 128) 1
  let s1 := { s with audioLevel := lvl }
  if s1.channel.isSome && decide (lvl > 5 / 100) then
    { s1 with sentActivity := s1.sentActivity ++ [activityPayloadOf s1.nickname s1.isMuted lvl] }
  else s1

/-- `createPeer` (source lines 203-256): construct a `simple-peer`
instance with the given `initiator` flag and store it under `targetUser`
in `peersRef`.  The event handlers it registers are embedded below as
the `onPeer...` transition functions. -/
def createPeer (targetUser : String) (initiator : Bool) (s : VoiceState) : VoiceState :=
  { s with peers := mapSet s.peers targetUser { initiator := initiator } }

/-- `removeRemoteAudio` (source lines 282-292): if an audio element is
stored for `userId`, pause it, clear `srcObject`, detach it from the DOM,
and drop it from `remoteAudiosRef` (ghost-recording the torn-down
element). -/
def removeRemoteAudio (userId : String) (s : VoiceState) : VoiceState :=
  match mapGet s.remoteAudios userId with
  | none => s
  | some audio =>
      { s with
          remoteAudios := mapDelete s.remoteAudios userId
          detachedAudios := s.detachedAudios ++
            [(userId, { audio with paused := true, hasSrc := false, attached := false })] }

/-- `playRemoteAudio` (source lines 259-279): remove any existing element
for `userId`, then create a fresh autoplaying element whose volume is 0
when deafened and 1 otherwise, attach it to the DOM and store it. -/
def playRemoteAudio (userId : String) (s : VoiceState) : VoiceState :=
  let s1 := removeRemoteAudio userId s
  let audio : AudioElem :=
    { volume := if s1.isDeafened then 0 else 1
      paused := false
      hasSrc := true
      attached := true }
  { s1 with remoteAudios := mapSet s1.remoteAudios userId audio }

/-- The `peer.on(signal)` handler (source lines 219-232): broadcast a
`webrtc_signal` envelope when a channel exists. -/
def onPeerSignalEvent (targetUser : String) (data : Nat) (s : VoiceState) : VoiceState :=
  match s.channel with
  | some _ => { s with sentSignals := s.sentSignals ++
      [{ target := targetUser, fromUser := s.nickname, signalData := data }] }
  | none => s

/-- The `peer.on(stream)` handler (source lines 234-237). -/
def onPeerStreamEvent (targetUser : String) (s : VoiceState) : VoiceState :=
  playRemoteAudio targetUser s

/-- The `peer.on(error)` handler the hook registers (source lines
243-246): it only deletes the map entry. -/
def onPeerErrorHandler (targetUser : String) (s : VoiceState) : VoiceState :=
  { s with peers := mapDelete s.peers targetUser }

/-- The `peer.on(close)` handler (source lines 248-252): delete the map
entry and tear down the remote audio element. -/
def onPeerCloseHandler (targetUser : String) (s : VoiceState) : VoiceState :=
  removeRemoteAudio targetUser { s with peers := mapDelete s.peers targetUser }

/-- Full effect of a fatal connection error on the peer for `u`: the
hook's error handler runs (deleting the map entry); `simple-peer`'s
documented contract then destroys the errored connection, which emits
`close`, so the hook's close handler runs as well (deleting the already
absent entry and removing the remote audio element). -/
def peerErrorEvent (u : String) (s : VoiceState) : VoiceState :=
  let s1 := onPeerErrorHandler u s
  let s2 := { s1 with destroyedPeers := s1.destroyedPeers ++ [u] }
  onPeerCloseHandler u s2

/-- The default roster entry built by the presence-sync handler (source
lines 315-321). -/
def defaultVoiceUser (key : String) : VoiceUser :=
  { id := key, nickname := key, isMuted := false, isSpeaking := false, audioLevel := 0 }

/-- Body of the presence-sync `users.forEach` (source lines 327-334):
initiate a connection to `user` only when it is not ourselves, has no
existing peer entry, and our nickname is lexicographically smaller. -/
def syncConnectStep (nickname : String) (s : VoiceState) (user : VoiceUser) : VoiceState :=
  if user.nickname != nickname && !(mapHas s.peers user.nickname) then
    if nickname < user.nickname then createPeer user.nickname true s else s
  else s

/-- The `presence/sync` handler (source lines 313-335): rebuild the whole
`voiceUsers` roster from the presence state keys with default display
fields, then walk the roster initiating connections per the
smaller-nickname rule. -/
def onPresenceSync (roster : List String) (s : VoiceState) : VoiceState :=
  let users := roster.map defaultVoiceUser
  let s1 := { s with voiceUsers := users }
  users.foldl (syncConnectStep s.nickname) s1

/-- The `presence/join` handler (source lines 337-345). -/
def onPresenceJoin (key : String) (s : VoiceState) : VoiceState :=
  if key != s.nickname && !(mapHas s.peers key) then
    if s.nickname < key then createPeer key true s else s
  else s

/-- The `presence/leave` handler (source lines 347-357): destroy and drop
the leaver's peer, tear down its audio element, and filter it out of the
roster. -/
def onPresenceLeave (key : String) (s : VoiceState) : VoiceState :=
  let s1 := match mapGet s.peers key with
    | some _ => { s with
        destroyedPeers := s.destroyedPeers ++ [key]
        peers := mapDelete s.peers key }
    | none => s
  let s2 := removeRemoteAudio key s1
  { s2 with voiceUsers := s2.voiceUsers.filter (fun u => u.nickname != key) }

/-- The `voice_activity` broadcast handler (source lines 360-373):
last-write-wins update of the sender's roster entry. -/
def onVoiceActivityEvent (p : ActivityPayload) (s : VoiceState) : VoiceState :=
  if p.userId != s.nickname then
    { s with voiceUsers := s.voiceUsers.map (fun u =>
        if u.nickname = p.userId then
          { u with isSpeaking := p.isSpeaking, audioLevel := p.audioLevel, isMuted := p.isMuted }
        else u) }
  else s

/-- `handleWebRTCSignal` (source lines 399-414): look up the sender; when
no peer exists, create one in non-initiator role; then feed the signal to
the peer (a library-internal mutation, not part of this state). -/
def handleWebRTCSignal (payload : SignalMsg) (s : VoiceState) : VoiceState :=
  if (mapGet s.peers payload.fromUser).isSome then s
  else createPeer payload.fromUser false s

/-- The `webrtc_signal` broadcast handler (source lines 376-380): only
envelopes addressed to the local nickname are handled. -/
def onWebRTCSignalEvent (payload : SignalMsg) (s : VoiceState) : VoiceState :=
  if payload.target = s.nickname then handleWebRTCSignal payload s else s

/-- `connectToVoice` (source lines 295-396), with the outcomes of its two
suspension points (`getUserMedia` inside `initializeAudio`, and
`channel.subscribe()`) passed as parameters.  Guard (line 296): return
unchanged when not enabled or already connected.  Otherwise clear the
error, run `initializeAudio` (its failure is caught at line 392, setting
the failed-to-connect error), create and configure the relay channel
(registering the handler functions embedded above), subscribe, track
presence, and finally set `isConnected`. -/
def connectToVoice (captureOk subscribeOk : Bool) (s : VoiceState) : VoiceState :=
  if !s.isEnabled || s.isConnected then s
  else
    let s0 := { s with connectionError := none }
    match initAudio captureOk s0 with
    | (s1, false) => { s1 with connectionError := some connectFailedMsg }
    | (s1, true) =>
        let s2 := { s1 with
            channel := some (RelayChannel.mk false)
            channelsCreated := s1.channelsCreated + 1 }
        if subscribeOk then
          let s3 := { s2 with channel := some (RelayChannel.mk true) }
          { s3 with isConnected := true }
        else
          { s2 with connectionError := some connectFailedMsg }

/-- The observable hook state while a first `connectToVoice` call is
suspended at `await initializeAudio()` — the "Connecting" phase: the
guard has passed, `setConnectionError(null)` has run, and the
`getUserMedia` request has been issued, but nothing else has happened
and `isConnected` is still false. -/
def connectingStateOf (s : VoiceState) : VoiceState :=
  { s with connectionError := none, captureAttempts := s.captureAttempts + 1 }

/-- `stream.getTracks().forEach(track => track.stop())` (source lines
425-428). -/
def stopTracks (stream : MediaStream) : MediaStream :=
  { tracks := stream.tracks.map (fun t => { t with stopped := true }) }

/-- Tear down the remote audio elements of the listed peer identities
(the `removeRemoteAudio(userId)` calls of the `peersRef` forEach in
`disconnectFromVoice`). -/
def removeAudiosFor (keys : List String) (s : VoiceState) : VoiceState :=
  keys.foldl (fun st k => removeRemoteAudio k st) s

/-- `disconnectFromVoice` (source lines 417-455): cancel the pending
animation frame (the ref keeps its stale id), stop and release the local
stream, close the audio context unless already closed, destroy every
peer connection and tear down its remote audio, clear the peer map,
unsubscribe and clear the relay channel, and reset the React state
cells. -/
def disconnectFromVoice (s : VoiceState) : VoiceState :=
  let sA := if s.animationFrame then { s with vadActive := false } else s
  let sB := match sA.localStream with
    | some stream => { sA with
        localStream := none
        stoppedStreams := sA.stoppedStreams ++ [stopTracks stream] }
    | none => sA
  let sC := match sB.audioContext with
    | some ctx => if ctx.closed then sB else { sB with audioContext := none }
    | none => sB
  let peerKeys := sC.peers.map Prod.fst
  let sD := { sC with destroyedPeers := sC.destroyedPeers ++ peerKeys }
  let sE := removeAudiosFor peerKeys sD
  let sF := { sE with peers := [] }
  let sG := match sF.channel with
    | some _ => { sF with channel := none, unsubscribeCount := sF.unsubscribeCount + 1 }
    | none => sF
  { sG with isConnected := false, voiceUsers := [], audioLevel := 0, connectionError := none }

/-- `toggleMute` (source lines 458-481): only when a local stream exists
and has a first audio track, set the track's `enabled` to the current
(pre-toggle) muted flag, flip the muted flag, and broadcast a
`voice_activity` payload carrying the new flag when a channel exists. -/
def toggleMute (s : VoiceState) : VoiceState :=
  match s.localStream with
  | none => s
  | some stream =>
      match stream.tracks with
      | [] => s
      | track :: rest =>
          let s1 := { s with
              localStream := some (MediaStream.mk ({ track with enabled := s.isMuted } :: rest))
              isMuted := !s.isMuted }
          match s1.channel with
          | none => s1
          | some _ => { s1 with sentActivity := s1.sentActivity ++
              [{ userId := s1.nickname
                 isSpeaking := false
                 audioLevel := 0
                 isMuted := !s.isMuted }] }

/-- `audio.volume = v` on one element. -/
def setVolume (v : Rat) (a : AudioElem) : AudioElem :=
  { a with volume := v }

/-- `toggleDeafen` (source lines 484-494): flip the deafened flag and set
every stored remote audio element's volume to 0 (deafened) or 1. -/
def toggleDeafen (s : VoiceState) : VoiceState :=
  let nd := !s.isDeafened
  { s with
      isDeafened := nd
      remoteAudios := s.remoteAudios.map (fun p => (p.1, setVolume (if nd then 0 else 1) p.2)) }

/-- The enabled-state of the outbound audio track
(`localStreamRef.current.getAudioTracks()[0].enabled`), when present. -/
def outboundTrackEnabled (s : VoiceState) : Option Bool :=
  s.localStream.bind (fun st => st.tracks.head?.map (fun t => t.enabled))

/-- The remote-audio maps left after tearing down the elements of the
listed identities, expressed purely on the map: the remaining entries. -/
def deleteKeys (ks : List String) (m : List (String × AudioElem)) :
    List (String × AudioElem) :=
  ks.foldl (fun acc k => mapDelete acc k) m

/-- The paused/detached elements produced while tearing down the listed
identities, in teardown order. -/
def detachList : List String → List (String × AudioElem) → List (String × AudioElem)
  | [], _ => []
  | k :: ks, m =>
      (match mapGet m k with
       | some a => [(k, { a with paused := true, hasSrc := false, attached := false })]
       | none => []) ++ detachList ks (mapDelete m k)

/-- A concrete connected session with one peer, used to instantiate the
teardown and no-op theorems. -/
def wConnectedState : VoiceState :=
  { initialVoiceState "c1" "alice" true with
      isConnected := true
      peers := [("bob", PeerInst.mk true)]
      channel := some (RelayChannel.mk true)
      localStream := some (MediaStream.mk [MediaTrack.mk true false])
      audioContext := some (AudioCtx.mk false)
      vadActive := true
      animationFrame := true
      remoteAudios := [("bob", AudioElem.mk 1 false true true)] }

/-- A freshly mounted hook state (no stream, no channel, not muted). -/
def freshHookState : VoiceState := initialVoiceState "c1" "alice" true

/-- A session whose relay channel is live, as seen by the sampling loop. -/
def wChannelState : VoiceState :=
  { initialVoiceState "c1" "alice" true with channel := some (RelayChannel.mk true) }

/-- A session state holding a live stream whose track enabled-state does
NOT equal the negation of the muted flag (reachable by muting, then
disconnecting and reconnecting: the new track starts enabled while the
muted flag persists). -/
def mutedEnabledState : VoiceState :=
  { initialVoiceState "c1" "alice" true with
      localStream := some (MediaStream.mk [MediaTrack.mk true false])
      isMuted := true }

/-- Witness for `peer_error_isolated`: session with peers `bob` and
`carol`, both with attached audio; an error on `bob` leaves `carol`
intact. -/
def wTwoPeerState : VoiceState :=
  { initialVoiceState "c1" "alice" true with
      isConnected := true
      peers := [("bob", PeerInst.mk true), ("carol", PeerInst.mk false)]
      channel := some (RelayChannel.mk true)
      remoteAudios := [("bob", AudioElem.mk 1 false true true),
                       ("carol", AudioElem.mk 1 false true true)] }

theorem mapGet_mapSet_self {α : Type} (m : List (String × α)) (k : String) (v : α) :
    mapGet (mapSet m k v) k = some v := by
  induction m with
  | nil => simp [mapSet, mapGet]
  | cons hd tl ih =>
      obtain ⟨k2, v2⟩ := hd
      by_cases h : k2 = k
      · simp [mapSet, h, mapGet]
      · simp [mapSet, h, mapGet, ih]

theorem mapGet_mapSet_ne {α : Type} (m : List (String × α)) (k k2 : String) (v : α)
    (h : k2 ≠ k) : mapGet (mapSet m k v) k2 = mapGet m k2 := by
  induction m with
  | nil => simp [mapSet, mapGet, if_neg (Ne.symm h)]
  | cons hd tl ih =>
      obtain ⟨k3, v3⟩ := hd
      by_cases h3 : k3 = k
      · subst h3
        simp [mapSet, mapGet, if_neg (Ne.symm h)]
      · simp only [mapSet, if_neg h3, mapGet]
        by_cases h4 : k3 = k2 <;> simp [h4, ih]

theorem mapGet_mapDelete_self {α : Type} (m : List (String × α)) (k : String) :
    mapGet (mapDelete m k) k = none := by
  induction m with
  | nil => simp [mapDelete, mapGet]
  | cons hd tl ih =>
      obtain ⟨k2, v2⟩ := hd
      by_cases h : k2 = k
      · simp [mapDelete, h, ih]
      · simp [mapDelete, h, mapGet, ih]

theorem mapGet_mapDelete_ne {α : Type} (m : List (String × α)) (k k2 : String)
    (h : k2 ≠ k) : mapGet (mapDelete m k) k2 = mapGet m k2 := by
  induction m with
  | nil => simp [mapDelete]
  | cons hd tl ih =>
      obtain ⟨k3, v3⟩ := hd
      by_cases h3 : k3 = k
      · subst h3
        simp [mapDelete, mapGet, if_neg (Ne.symm h), ih]
      · simp only [mapDelete, if_neg h3, mapGet]
        by_cases h4 : k3 = k2 <;> simp [h4, ih]

theorem mapDelete_of_get_none {α : Type} (m : List (String × α)) (k : String)
    (h : mapGet m k = none) : mapDelete m k = m := by
  induction m with
  | nil => simp [mapDelete]
  | cons hd tl ih =>
      obtain ⟨k2, v2⟩ := hd
      by_cases h2 : k2 = k
      · simp [mapGet, h2] at h
      · simp only [mapGet, if_neg h2] at h
        simp [mapDelete, h2, ih h]

theorem mapGet_none_mapDelete {α : Type} (m : List (String × α)) (k k2 : String)
    (h : mapGet m k = none) : mapGet (mapDelete m k2) k = none := by
  induction m with
  | nil => simp [mapDelete, mapGet]
  | cons hd tl ih =>
      obtain ⟨k3, v3⟩ := hd
      by_cases h3 : k3 = k
      · simp [mapGet, h3] at h
      · simp only [mapGet, if_neg h3] at h
        by_cases h4 : k3 = k2
        · simp [mapDelete, h4, ih h]
        · simp [mapDelete, h4, mapGet, h3, ih h]

theorem removeAudiosFor_spec (ks : List String) :
    ∀ s : VoiceState, removeAudiosFor ks s =
      { s with
          remoteAudios := deleteKeys ks s.remoteAudios
          detachedAudios := s.detachedAudios ++ detachList ks s.remoteAudios } := by
  induction ks with
  | nil => intro s; simp [removeAudiosFor, deleteKeys, detachList]
  | cons k ks ih =>
      intro s
      have hstep : removeAudiosFor (k :: ks) s = removeAudiosFor ks (removeRemoteAudio k s) := rfl
      rw [hstep]
      cases hget : mapGet s.remoteAudios k with
      | none =>
          have h1 : removeRemoteAudio k s = s := by
            unfold removeRemoteAudio; rw [hget]
          rw [h1, ih s]
          simp [deleteKeys, detachList, hget, mapDelete_of_get_none _ _ hget]
      | some a =>
          have h1 : removeRemoteAudio k s =
              { s with
                  remoteAudios := mapDelete s.remoteAudios k
                  detachedAudios := s.detachedAudios ++
                    [(k, { a with paused := true, hasSrc := false, attached := false })] } := by
            unfold removeRemoteAudio; rw [hget]
          rw [h1, ih]
          simp [deleteKeys, detachList, hget, List.append_assoc]

theorem mapGet_none_deleteKeys (ks : List String) :
    ∀ (m : List (String × AudioElem)) (k : String),
      mapGet m k = none → mapGet (deleteKeys ks m) k = none := by
  induction ks with
  | nil => intro m k h; exact h
  | cons k2 ks ih =>
      intro m k h
      have hstep : deleteKeys (k2 :: ks) m = deleteKeys ks (mapDelete m k2) := rfl
      rw [hstep]
      exact ih _ _ (mapGet_none_mapDelete _ _ _ h)

theorem mapGet_deleteKeys_of_mem (ks : List String) :
    ∀ (m : List (String × AudioElem)) (k : String),
      k ∈ ks → mapGet (deleteKeys ks m) k = none := by
  induction ks with
  | nil => intro m k h; cases h
  | cons k2 ks ih =>
      intro m k h
      have hstep : deleteKeys (k2 :: ks) m = deleteKeys ks (mapDelete m k2) := rfl
      rw [hstep]
      by_cases hk : k = k2
      · subst hk
        exact mapGet_none_deleteKeys ks _ _ (mapGet_mapDelete_self m k)
      · rcases List.mem_cons.mp h with h2 | h2
        · exact absurd h2 hk
        · exact ih _ _ h2

theorem stopTracks_all_stopped (st : MediaStream) :
    ∀ t ∈ (stopTracks st).tracks, t.stopped = true := by
  intro t ht
  simp only [stopTracks, List.mem_map] at ht
  obtain ⟨t0, _, rfl⟩ := ht
  rfl

/-- Closed-form characterization of `disconnectFromVoice`: each field of
the result as a function of the input fields. -/
theorem disconnect_char (s : VoiceState) :
    disconnectFromVoice s =
      { s with
          vadActive := if s.animationFrame then false else s.vadActive
          localStream := none
          stoppedStreams := s.stoppedStreams ++ (s.localStream.map stopTracks).toList
          audioContext :=
            (match s.audioContext with
             | some ctx => if ctx.closed then some ctx else none
             | none => none)
          destroyedPeers := s.destroyedPeers ++ s.peers.map Prod.fst
          remoteAudios := deleteKeys (s.peers.map Prod.fst) s.remoteAudios
          detachedAudios := s.detachedAudios ++ detachList (s.peers.map Prod.fst) s.remoteAudios
          peers := []
          channel := none
          unsubscribeCount := s.unsubscribeCount + (if s.channel.isSome then 1 else 0)
          isConnected := false
          voiceUsers := []
          audioLevel := 0
          connectionError := none } := by
  unfold disconnectFromVoice
  cases hAF : s.animationFrame <;>
    cases hLS : s.localStream <;>
    rcases hAC : s.audioContext with _ | ⟨cl⟩ <;>
    cases hCh : s.channel <;>
    (try (obtain ⟨cb⟩ := cl; cases cb)) <;>
    simp [hAF, hLS, hAC, hCh, removeAudiosFor_spec]

/-- C2: `disconnectFromVoice`, from any state, leaves zero active
PeerLinks (peer map empty, every peer destroyed and its remote audio
removed), the local capture stream stopped and released, the relay
channel unsubscribed and cleared, and the session Disconnected
(`isConnected` false, no error); and it is idempotent: a second call in
succession does not throw (it is a total function) and leaves the exact
same final state. -/
theorem disconnect_total_cleanup (s : VoiceState) :
    (disconnectFromVoice s).peers = [] ∧
    (∀ k, k ∈ s.peers.map Prod.fst →
        k ∈ (disconnectFromVoice s).destroyedPeers ∧
        mapGet (disconnectFromVoice s).remoteAudios k = none) ∧
    (disconnectFromVoice s).localStream = none ∧
    (∀ st, s.localStream = some st →
        stopTracks st ∈ (disconnectFromVoice s).stoppedStreams ∧
        ∀ t ∈ (stopTracks st).tracks, t.stopped = true) ∧
    (disconnectFromVoice s).channel = none ∧
    (s.channel.isSome = true →
        (disconnectFromVoice s).unsubscribeCount = s.unsubscribeCount + 1) ∧
    (disconnectFromVoice s).isConnected = false ∧
    (disconnectFromVoice s).connectionError = none ∧
    disconnectFromVoice (disconnectFromVoice s) = disconnectFromVoice s := by
  rw [disconnect_char]
  refine ⟨rfl, ?_, rfl, ?_, rfl, ?_, rfl, rfl, ?_⟩
  · intro k hk
    refine ⟨List.mem_append_right _ hk, mapGet_deleteKeys_of_mem _ _ _ hk⟩
  · intro st hst
    refine ⟨?_, stopTracks_all_stopped st⟩
    simp [hst]
  · intro hch
    simp [hch]
  · rw [disconnect_char]
    cases hAF : s.animationFrame <;>
      cases hAC : s.audioContext <;>
      (try (rename_i ctx; obtain ⟨cb⟩ := ctx; cases cb)) <;>
      simp [hAF, hAC, deleteKeys, detachList]

/-- Witness for `disconnect_total_cleanup` at a concrete connected
session with one peer. -/
theorem disconnect_total_cleanup_witness :
    ("bob" ∈ wConnectedState.peers.map Prod.fst) ∧
    (wConnectedState.localStream = some (MediaStream.mk [MediaTrack.mk true false])) ∧
    (wConnectedState.channel.isSome = true) ∧
    ("bob" ∈ (disconnectFromVoice wConnectedState).destroyedPeers ∧
      mapGet (disconnectFromVoice wConnectedState).remoteAudios "bob" = none) ∧
    (stopTracks (MediaStream.mk [MediaTrack.mk true false]) ∈
      (disconnectFromVoice wConnectedState).stoppedStreams) ∧
    ((disconnectFromVoice wConnectedState).unsubscribeCount =
      wConnectedState.unsubscribeCount + 1) :=
  ⟨by decide, by decide, by decide,
    (disconnect_total_cleanup wConnectedState).2.1 "bob" (by decide),
    ((disconnect_total_cleanup wConnectedState).2.2.2.1 _ (by decide)).1,
    (disconnect_total_cleanup wConnectedState).2.2.2.2.2.1 (by decide)⟩

/-- C3 (amended): calling `toggleMute` when no local audio stream has
been acquired does not throw (the transition is total) but is a no-op:
the whole state, in particular the muted flag, is left unchanged. -/
theorem toggleMute_no_stream_noop (s : VoiceState) (h : s.localStream = none) :
    toggleMute s = s := by
  unfold toggleMute
  rw [h]

/-- Counterexample to C3 as stated: with no connection active the muted
flag is NOT flipped by `toggleMute` (the source guards the whole body on
`localStreamRef.current`). -/
theorem toggleMute_no_stream_cx :
    freshHookState.localStream = none ∧
    (toggleMute freshHookState).isMuted ≠ (!freshHookState.isMuted) := by decide

/-- Witness for `toggleMute_no_stream_noop` at the fresh hook state. -/
theorem toggleMute_no_stream_noop_witness :
    freshHookState.localStream = none ∧ toggleMute freshHookState = freshHookState :=
  ⟨by decide, toggleMute_no_stream_noop freshHookState (by decide)⟩

theorem mapGet_mapValues {α β : Type} (f : α → β) (m : List (String × α)) (k : String) :
    mapGet (m.map (fun p => (p.1, f p.2))) k = (mapGet m k).map f := by
  induction m with
  | nil => simp [mapGet]
  | cons hd tl ih =>
      obtain ⟨k2, v2⟩ := hd
      by_cases h : k2 = k <;> simp [mapGet, h, ih]

/-- C7: `toggleDeafen` flips the deafened flag and sets the volume of
every currently attached remote audio output to exactly 0 when entering
the deafened state and exactly 1 when leaving it; and a remote audio
output attached afterwards by `playRemoteAudio` is created with volume
honoring the current deafened flag immediately. -/
theorem deafen_volumes (s : VoiceState) (u k : String) (a : AudioElem) :
    ((toggleDeafen s).isDeafened = !s.isDeafened) ∧
    (mapGet (toggleDeafen s).remoteAudios k = some a →
      a.volume = if (toggleDeafen s).isDeafened then 0 else 1) ∧
    (mapGet (playRemoteAudio u s).remoteAudios u =
      some { volume := if s.isDeafened then 0 else 1
             paused := false
             hasSrc := true
             attached := true }) := by
  refine ⟨rfl, ?_, ?_⟩
  · intro hget
    have hra : (toggleDeafen s).remoteAudios =
        s.remoteAudios.map (fun p => (p.1, setVolume (if !s.isDeafened then 0 else 1) p.2)) := rfl
    rw [hra, mapGet_mapValues] at hget
    rcases hmap : mapGet s.remoteAudios k with _ | a0 <;> rw [hmap] at hget
    · cases hget
    · have ha : setVolume (if !s.isDeafened then 0 else 1) a0 = a := by
        simpa using hget
      subst ha
      rfl
  · unfold playRemoteAudio
    have hdeaf : (removeRemoteAudio u s).isDeafened = s.isDeafened := by
      unfold removeRemoteAudio
      cases mapGet s.remoteAudios u <;> rfl
    simp [mapGet_mapSet_self, hdeaf]

/-- Witness for `deafen_volumes` at a concrete session with one attached
remote output. -/
theorem deafen_volumes_witness :
    (mapGet (toggleDeafen wConnectedState).remoteAudios "bob" =
      some (AudioElem.mk 0 false true true)) ∧
    ((AudioElem.mk 0 false true true).volume =
      if (toggleDeafen wConnectedState).isDeafened then 0 else 1) ∧
    (mapGet (playRemoteAudio "carol" wConnectedState).remoteAudios "carol" =
      some { volume := if wConnectedState.isDeafened then 0 else 1
             paused := false
             hasSrc := true
             attached := true }) :=
  ⟨by decide,
    (deafen_volumes wConnectedState "carol" "bob" (AudioElem.mk 0 false true true)).2.1
      (by decide),
    (deafen_volumes wConnectedState "carol" "bob" (AudioElem.mk 0 false true true)).2.2⟩

/-- C8 (amended): `connectToVoice` is a no-op when the session is already
Connected (or the hook is disabled): no state change, hence no second
capture acquisition and no second relay subscription. -/
theorem connect_noop_when_connected (okC okS : Bool) (s : VoiceState)
    (h : s.isConnected = true ∨ s.isEnabled = false) :
    connectToVoice okC okS s = s := by
  unfold connectToVoice
  rcases h with h | h <;> simp [h]

/-- Witness for `connect_noop_when_connected` at a concrete connected
session. -/
theorem connect_noop_when_connected_witness :
    wConnectedState.isConnected = true ∧
    connectToVoice true true wConnectedState = wConnectedState :=
  ⟨by decide, connect_noop_when_connected true true wConnectedState (Or.inl (by decide))⟩

/-- Counterexample to C8 as stated: while a first `connectToVoice` call
is still Connecting (suspended awaiting capture, `isConnected` not yet
set), a second call is NOT a no-op — the guard only checks
`isConnected`, so the second call proceeds and performs a second capture
acquisition. -/
theorem connect_reentry_cx :
    (connectingStateOf freshHookState).isEnabled = true ∧
    (connectingStateOf freshHookState).isConnected = false ∧
    (connectingStateOf freshHookState).captureAttempts = 1 ∧
    (connectToVoice true true (connectingStateOf freshHookState)).captureAttempts = 2 ∧
    connectToVoice true true (connectingStateOf freshHookState) ≠
      connectingStateOf freshHookState := by decide

/-- C5: when capture acquisition fails during `connectToVoice` (permission
denied), the session ends in the Error state with a human-readable cause
string set, no relay channel is ever created or leaked, no PeerLinks
exist, and `isConnected` remains false. -/
theorem connect_capture_failure (okS : Bool) (s : VoiceState)
    (hEn : s.isEnabled = true) (hConn : s.isConnected = false)
    (hCh : s.channel = none) (hPeers : s.peers = []) :
    (connectToVoice false okS s).connectionError = some connectFailedMsg ∧
    (connectToVoice false okS s).channel = none ∧
    (connectToVoice false okS s).channelsCreated = s.channelsCreated ∧
    (connectToVoice false okS s).peers = [] ∧
    (connectToVoice false okS s).isConnected = false := by
  unfold connectToVoice initAudio
  simp [hEn, hConn, hCh, hPeers]

/-- Witness for `connect_capture_failure` at the fresh hook state. -/
theorem connect_capture_failure_witness :
    freshHookState.isEnabled = true ∧
    freshHookState.isConnected = false ∧
    freshHookState.channel = none ∧
    freshHookState.peers = [] ∧
    ((connectToVoice false true freshHookState).connectionError = some connectFailedMsg ∧
      (connectToVoice false true freshHookState).channel = none ∧
      (connectToVoice false true freshHookState).channelsCreated =
        freshHookState.channelsCreated ∧
      (connectToVoice false true freshHookState).peers = [] ∧
      (connectToVoice false true freshHookState).isConnected = false) :=
  ⟨by decide, by decide, by decide, by decide,
    connect_capture_failure true freshHookState (by decide) (by decide) (by decide) (by decide)⟩

theorem syncFold_voiceUsers (nick : String) (users : List VoiceUser) :
    ∀ t : VoiceState, (users.foldl (syncConnectStep nick) t).voiceUsers = t.voiceUsers := by
  induction users with
  | nil => intro t; rfl
  | cons u us ih =>
      intro t
      rw [List.foldl_cons, ih]
      unfold syncConnectStep createPeer
      split
      · split <;> rfl
      · rfl

/-- C10: every presence-sync event rebuilds the entire voice roster from
the presence keys with default per-peer display fields (`isMuted` false,
`isSpeaking` false, `audioLevel` 0), discarding whatever activity data
the previous roster held. -/
theorem presence_sync_resets_roster (roster : List String) (s : VoiceState) :
    (onPresenceSync roster s).voiceUsers =
      roster.map (fun key =>
        { id := key, nickname := key, isMuted := false, isSpeaking := false, audioLevel := 0 }) := by
  unfold onPresenceSync
  rw [syncFold_voiceUsers]
  rfl

/-- A normalized level actually producible by the sampling loop — the
analyser has `fftSize = 256`, hence exactly 128 byte bins, making every
level `min (sum/16384) 1` for an integer `sum` — is never exactly 0.15:
`sum/16384 = 0.15` would need `sum = 2457.6`. -/
theorem producible_level_ne_boundary (n : Nat) :
    min ((n : Rat) / 128 / 128) 1 ≠ 15 / 100 := by
  intro heq
  rcases min_cases ((n : Rat) / 128 / 128) 1 with ⟨h1, _⟩ | ⟨h1, _⟩ <;> rw [h1] at heq
  · have h2 : (n : Rat) * 100 = 245760 := by
      field_simp at heq
      linarith
    have h3 : n * 100 = 245760 := by exact_mod_cast h2
    omega
  · norm_num at heq

/-- C4: every activity sample the sampling loop can actually produce (the
analyser yields exactly 128 byte bins) broadcasts `isSpeaking = false`
when the normalized level is below 0.15 and `isSpeaking = true` when it
is ≥ 0.15; the comparison is strict greater-than, and the boundary case
of a level exactly 0.15 (where it would return false) is unreachable: no
128-bin byte read yields that level, so the boundary conjunct holds
vacuously and does not conflict with the ≥ direction. -/
theorem activity_sample_threshold (d : List Nat) (s : VoiceState) (p : ActivityPayload)
    (hL : d.length = 128)
    (hmem : p ∈ (detectVoiceStep d s).sentActivity) (hnew : p ∉ s.sentActivity) :
    (p.isSpeaking = true ↔ p.audioLevel > 15 / 100) ∧
    (p.audioLevel < 15 / 100 → p.isSpeaking = false) ∧
    (p.audioLevel ≥ 15 / 100 → p.isSpeaking = true) ∧
    (p.audioLevel = 15 / 100 → p.isSpeaking = false) := by
  simp only [detectVoiceStep] at hmem
  by_cases hc : (s.channel.isSome &&
      decide (min ((d.sum : Rat) / (d.length : Rat) / 128) 1 > 5 / 100)) = true
  · simp only [hc, if_true] at hmem
    rcases List.mem_append.mp hmem with hold | hnewmem
    · exact absurd hold hnew
    · have hp : p = activityPayloadOf s.nickname s.isMuted
          (min ((d.sum : Rat) / (d.length : Rat) / 128) 1) := by
        simpa using hnewmem
      have hne : min ((d.sum : Rat) / (d.length : Rat) / 128) 1 ≠ 15 / 100 := by
        rw [hL]
        simpa using producible_level_ne_boundary d.sum
      subst hp
      simp only [activityPayloadOf]
      refine ⟨by simp, ?_, ?_, ?_⟩
      · intro hlt
        exact decide_eq_false (lt_asymm hlt)
      · intro hge
        exact decide_eq_true (lt_of_le_of_ne hge (Ne.symm hne))
      · intro heq
        exact absurd heq hne
  · simp only [Bool.not_eq_true] at hc
    simp only [hc, Bool.false_eq_true, if_false] at hmem
    exact absurd hmem hnew

/-- Witness for `activity_sample_threshold` at a producible 128-bin
analyser read of constant level 64 (normalized level 1/2). -/
theorem activity_sample_threshold_witness :
    ((List.replicate 128 64 : List Nat).length = 128) ∧
    (activityPayloadOf "alice" false (1 / 2) ∈
        (detectVoiceStep (List.replicate 128 64) wChannelState).sentActivity) ∧
    (activityPayloadOf "alice" false (1 / 2) ∉ wChannelState.sentActivity) ∧
    (((activityPayloadOf "alice" false (1 / 2)).isSpeaking = true ↔
        (activityPayloadOf "alice" false (1 / 2)).audioLevel > 15 / 100) ∧
      ((activityPayloadOf "alice" false (1 / 2)).audioLevel < 15 / 100 →
        (activityPayloadOf "alice" false (1 / 2)).isSpeaking = false) ∧
      ((activityPayloadOf "alice" false (1 / 2)).audioLevel ≥ 15 / 100 →
        (activityPayloadOf "alice" false (1 / 2)).isSpeaking = true) ∧
      ((activityPayloadOf "alice" false (1 / 2)).audioLevel = 15 / 100 →
        (activityPayloadOf "alice" false (1 / 2)).isSpeaking = false)) := by
  have hsa : (detectVoiceStep (List.replicate 128 64) wChannelState).sentActivity =
      [activityPayloadOf "alice" false (1 / 2)] := by
    have hlvl : min ((((List.replicate 128 64 : List Nat).sum : Rat)) /
        (((List.replicate 128 64 : List Nat).length : Rat)) / 128) 1 = 1 / 2 := by
      norm_num [List.sum_replicate, smul_eq_mul]
    simp only [detectVoiceStep]
    rw [hlvl]
    norm_num [wChannelState, initialVoiceState]
  have hmem : activityPayloadOf "alice" false (1 / 2) ∈
      (detectVoiceStep (List.replicate 128 64) wChannelState).sentActivity := by
    rw [hsa]
    exact List.mem_singleton_self _
  have hnot : activityPayloadOf "alice" false (1 / 2) ∉ wChannelState.sentActivity := by
    simp [wChannelState, initialVoiceState]
  exact ⟨by simp, hmem, hnot,
    activity_sample_threshold _ _ _ (by simp) hmem hnot⟩

theorem toggleMute_char (s : VoiceState) (tr : MediaTrack) (rest : List MediaTrack)
    (h1 : s.localStream = some (MediaStream.mk (tr :: rest))) :
    (toggleMute s).isMuted = !s.isMuted ∧
    (toggleMute s).localStream =
      some (MediaStream.mk ({ tr with enabled := s.isMuted } :: rest)) := by
  unfold toggleMute
  rw [h1]
  cases hch : s.channel <;> simp [hch]

/-- C9 (amended): two successive `toggleMute` calls always return the
muted flag to its original value; and provided the outbound track's
enabled-state was the negation of the muted flag to begin with (the
invariant every reachable single-session state satisfies), the
enabled-state also returns to its original value.  Unconditionally the
round trip leaves the enabled-state at the negation of the muted flag,
not necessarily at its arbitrary starting value. -/
theorem toggleMute_roundtrip (s : VoiceState) (tr : MediaTrack) (rest : List MediaTrack)
    (h1 : s.localStream = some (MediaStream.mk (tr :: rest)))
    (h3 : tr.enabled = !s.isMuted) :
    (toggleMute (toggleMute s)).isMuted = s.isMuted ∧
    outboundTrackEnabled (toggleMute (toggleMute s)) = some tr.enabled := by
  obtain ⟨m1, l1⟩ := toggleMute_char s tr rest h1
  obtain ⟨m2, l2⟩ := toggleMute_char (toggleMute s) { tr with enabled := s.isMuted } rest l1
  constructor
  · rw [m2, m1, Bool.not_not]
  · unfold outboundTrackEnabled
    rw [l2, m1, h3]
    rfl

/-- Counterexample to C9 as stated: from a starting state with a live
audio track where `enabled = true` and `muted = true`, two `toggleMute`
calls return `muted` to `true` but leave the track disabled — the
enabled-state does not return to its original value. -/
theorem toggleMute_roundtrip_cx :
    outboundTrackEnabled mutedEnabledState = some true ∧
    (toggleMute (toggleMute mutedEnabledState)).isMuted = mutedEnabledState.isMuted ∧
    outboundTrackEnabled (toggleMute (toggleMute mutedEnabledState)) = some false := by decide

/-- Witness for `toggleMute_roundtrip` at a fresh unmuted session. -/
theorem toggleMute_roundtrip_witness :
    (freshCaptureState freshHookState).localStream =
      some (MediaStream.mk [MediaTrack.mk true false]) ∧
    (MediaTrack.mk true false).enabled = (!(freshCaptureState freshHookState).isMuted) ∧
    ((toggleMute (toggleMute (freshCaptureState freshHookState))).isMuted =
        (freshCaptureState freshHookState).isMuted ∧
      outboundTrackEnabled (toggleMute (toggleMute (freshCaptureState freshHookState))) =
        some (MediaTrack.mk true false).enabled) :=
  ⟨by decide, by decide,
    toggleMute_roundtrip (freshCaptureState freshHookState)
      (MediaTrack.mk true false) [] (by decide) (by decide)⟩

theorem syncFold_new_peers (nick : String) (users : List VoiceUser) :
    ∀ (t : VoiceState) (k : String) (pi : PeerInst),
      mapGet (users.foldl (syncConnectStep nick) t).peers k = some pi →
      mapGet t.peers k = some pi ∨ (pi.initiator = true ∧ nick < k) := by
  induction users with
  | nil => intro t k pi h; exact Or.inl h
  | cons u us ih =>
      intro t k pi h
      rw [List.foldl_cons] at h
      rcases ih _ k pi h with h2 | h2
      · unfold syncConnectStep at h2
        by_cases hguard : (u.nickname != nick && !(mapHas t.peers u.nickname)) = true
        · rw [if_pos hguard] at h2
          by_cases hlt : nick < u.nickname
          · rw [if_pos hlt] at h2
            unfold createPeer at h2
            by_cases hk : k = u.nickname
            · subst hk
              rw [mapGet_mapSet_self] at h2
              obtain rfl := (Option.some.injEq _ _).mp h2
              exact Or.inr ⟨rfl, hlt⟩
            · rw [mapGet_mapSet_ne _ _ _ _ hk] at h2
              exact Or.inl h2
          · rw [if_neg hlt] at h2
            exact Or.inl h2
        · rw [if_neg hguard] at h2
          exact Or.inl h2
      · exact Or.inr h2

/-- C1: initiator election.  On a presence join for `key`: when the local
nickname is not lexicographically smaller, the peer map is unchanged (no
initiator connection is created); when it is smaller and no PeerLink
exists, an initiator PeerLink toward `key` is created.  On a presence
sync, every newly created PeerLink is an initiator one toward a
lexicographically larger identity.  And when a negotiation payload
arrives from a peer with no existing PeerLink, a non-initiator PeerLink
is created regardless of the ordering rule. -/
theorem initiator_election (s : VoiceState) (key : String) (roster : List String)
    (pl : SignalMsg) :
    (¬ s.nickname < key → (onPresenceJoin key s).peers = s.peers) ∧
    (s.nickname < key → mapGet s.peers key = none →
      mapGet (onPresenceJoin key s).peers key = some { initiator := true }) ∧
    (∀ (k : String) (pi : PeerInst),
      mapGet (onPresenceSync roster s).peers k = some pi → mapGet s.peers k = none →
      pi.initiator = true ∧ s.nickname < k) ∧
    (mapGet s.peers pl.fromUser = none →
      mapGet (handleWebRTCSignal pl s).peers pl.fromUser = some { initiator := false }) := by
  refine ⟨?_, ?_, ?_, ?_⟩
  · intro hnlt
    unfold onPresenceJoin
    by_cases hguard : (key != s.nickname && !(mapHas s.peers key)) = true
    · rw [if_pos hguard, if_neg hnlt]
    · rw [if_neg hguard]
  · intro hlt hnone
    have hne : key ≠ s.nickname := by
      intro he
      rw [he] at hlt
      exact lt_irrefl _ hlt
    unfold onPresenceJoin
    rw [if_pos, if_pos hlt]
    · unfold createPeer
      exact mapGet_mapSet_self _ _ _
    · simp [mapHas, hnone, bne_iff_ne, hne]
  · intro k pi hget hnone
    unfold onPresenceSync at hget
    rcases syncFold_new_peers s.nickname (roster.map defaultVoiceUser) _ k pi hget with h | h
    · rw [show ({ s with voiceUsers := roster.map defaultVoiceUser } : VoiceState).peers
          = s.peers from rfl] at h
      rw [h] at hnone
      cases hnone
    · exact h
  · intro hnone
    unfold handleWebRTCSignal
    rw [hnone]
    unfold createPeer
    simp only [Option.isSome_none, Bool.false_eq_true, if_false]
    exact mapGet_mapSet_self _ _ _

/-- Witness for `initiator_election` with local identity `bob`: no
initiator link toward the smaller `alice`, an initiator link toward the
larger `carol` (join and sync), and a non-initiator link toward unknown
sender `zed` on an inbound signal. -/
theorem initiator_election_witness :
    ((onPresenceJoin "alice" (initialVoiceState "c1" "bob" true)).peers =
      (initialVoiceState "c1" "bob" true).peers) ∧
    (mapGet (onPresenceJoin "carol" (initialVoiceState "c1" "bob" true)).peers "carol" =
      some { initiator := true }) ∧
    (({ initiator := true } : PeerInst).initiator = true ∧ ("bob" : String) < "carol") ∧
    (mapGet (handleWebRTCSignal (SignalMsg.mk "bob" "zed" 0)
        (initialVoiceState "c1" "bob" true)).peers "zed" = some { initiator := false }) := by
  have hbc : ("bob" : String) < "carol" := by
    rw [String.lt_iff_toList_lt]
    decide
  have hnba : ¬ ("bob" : String) < "alice" := by
    rw [String.lt_iff_toList_lt]
    decide
  have hsync : mapGet (onPresenceSync ["carol"]
      (initialVoiceState "c1" "bob" true)).peers "carol" = some { initiator := true } := by
    simp [onPresenceSync, syncConnectStep, createPeer, defaultVoiceUser, mapHas, mapGet,
      mapSet, initialVoiceState, hbc]
  refine ⟨?_, ?_, ?_, ?_⟩
  · exact (initiator_election (initialVoiceState "c1" "bob" true) "alice" []
      (SignalMsg.mk "bob" "zed" 0)).1 hnba
  · exact (initiator_election (initialVoiceState "c1" "bob" true) "carol" []
      (SignalMsg.mk "bob" "zed" 0)).2.1 hbc (by decide)
  · exact (initiator_election (initialVoiceState "c1" "bob" true) "carol" ["carol"]
      (SignalMsg.mk "bob" "zed" 0)).2.2.1 "carol" { initiator := true } hsync (by decide)
  · exact (initiator_election (initialVoiceState "c1" "bob" true) "carol" []
      (SignalMsg.mk "bob" "zed" 0)).2.2.2 (by decide)

/-- C6: a fatal connection error on the peer for `u` removes that
PeerLink from the peer collection, destroys its connection, and stops
and removes its remote audio output, while every other PeerLink, every
other remote audio output, and the session state (`isConnected`, roster,
error) are left unchanged. -/
theorem peer_error_isolated (s : VoiceState) (u k : String) (a : AudioElem) :
    mapGet (peerErrorEvent u s).peers u = none ∧
    u ∈ (peerErrorEvent u s).destroyedPeers ∧
    mapGet (peerErrorEvent u s).remoteAudios u = none ∧
    (mapGet s.remoteAudios u = some a →
      (u, { a with paused := true, hasSrc := false, attached := false }) ∈
        (peerErrorEvent u s).detachedAudios) ∧
    (k ≠ u →
      mapGet (peerErrorEvent u s).peers k = mapGet s.peers k ∧
      mapGet (peerErrorEvent u s).remoteAudios k = mapGet s.remoteAudios k) ∧
    (peerErrorEvent u s).isConnected = s.isConnected ∧
    (peerErrorEvent u s).voiceUsers = s.voiceUsers ∧
    (peerErrorEvent u s).connectionError = s.connectionError := by
  have hstep : peerErrorEvent u s =
      removeRemoteAudio u
        { s with
            peers := mapDelete (mapDelete s.peers u) u
            destroyedPeers := s.destroyedPeers ++ [u] } := rfl
  cases hra : mapGet s.remoteAudios u with
  | none =>
      have hre : peerErrorEvent u s =
          { s with
              peers := mapDelete (mapDelete s.peers u) u
              destroyedPeers := s.destroyedPeers ++ [u] } := by
        rw [hstep]
        simp only [removeRemoteAudio, hra]
      rw [hre]
      refine ⟨mapGet_mapDelete_self _ _, by simp, hra, ?_, ?_, rfl, rfl, rfl⟩
      · intro hcontra
        cases hcontra
      · intro hk
        exact ⟨by rw [mapGet_mapDelete_ne _ _ _ hk, mapGet_mapDelete_ne _ _ _ hk], rfl⟩
  | some a0 =>
      have hre : peerErrorEvent u s =
          { s with
              peers := mapDelete (mapDelete s.peers u) u
              destroyedPeers := s.destroyedPeers ++ [u]
              remoteAudios := mapDelete s.remoteAudios u
              detachedAudios := s.detachedAudios ++
                [(u, { a0 with paused := true, hasSrc := false, attached := false })] } := by
        rw [hstep]
        simp only [removeRemoteAudio, hra]
      rw [hre]
      refine ⟨mapGet_mapDelete_self _ _, by simp, mapGet_mapDelete_self _ _, ?_, ?_, rfl, rfl, rfl⟩
      · intro hsome
        obtain rfl := (Option.some.injEq _ _).mp hsome
        simp
      · intro hk
        exact ⟨by rw [mapGet_mapDelete_ne _ _ _ hk, mapGet_mapDelete_ne _ _ _ hk],
          mapGet_mapDelete_ne _ _ _ hk⟩

theorem peer_error_isolated_witness :
    (mapGet wTwoPeerState.remoteAudios "bob" = some (AudioElem.mk 1 false true true)) ∧
    (("carol" : String) ≠ "bob") ∧
    (mapGet (peerErrorEvent "bob" wTwoPeerState).peers "bob" = none ∧
      "bob" ∈ (peerErrorEvent "bob" wTwoPeerState).destroyedPeers ∧
      mapGet (peerErrorEvent "bob" wTwoPeerState).remoteAudios "bob" = none) ∧
    (("bob", AudioElem.mk 1 true false false) ∈
      (peerErrorEvent "bob" wTwoPeerState).detachedAudios) ∧
    (mapGet (peerErrorEvent "bob" wTwoPeerState).peers "carol" =
        mapGet wTwoPeerState.peers "carol" ∧
      mapGet (peerErrorEvent "bob" wTwoPeerState).remoteAudios "carol" =
        mapGet wTwoPeerState.remoteAudios "carol") ∧
    ((peerErrorEvent "bob" wTwoPeerState).isConnected = wTwoPeerState.isConnected) := by
  have h := peer_error_isolated wTwoPeerState "bob" "carol" (AudioElem.mk 1 false true true)
  exact ⟨by decide, by decide, ⟨h.1, h.2.1, h.2.2.1⟩,
    h.2.2.2.1 (by decide), h.2.2.2.2.1 (by decide), h.2.2.2.2.2.1⟩
